import Mathlib

/-!
# Arche — verification of the turn-orchestration spec against the source

Shallow embedding of the parts of the GizAI/arche repository that the
claims C1–C10 are about:

* `frontend/src/stores/agent.ts` — the agent store: `AgentStatus` interface,
  `start` request defaults, `submitFeedback` defaults, `appendLog` log capping.
* `DiffViewer.vue` (`computeDiff`) — the simple line-by-line diff.
* `src/arche/PROMPT.md` — the Jinja turn-prompt template (mode-based variant,
  lines 17–43), embedded as a line-list renderer.
* `src/arche/RULE_REVIEW.md` — the Response Format section of the review
  system-prompt template (finite vs infinite directive shape).
* The Python orchestrator daemon (`arche.py`) and the record store are not
  present under `src/`; where a claim depends on them they are modelled from
  the spec, and each such definition is marked `Modelled from the spec:`.

JS strings are modelled as `List Char` where character-level slicing matters,
and as Lean `String` elsewhere; machine integers stay in `Nat` (no overflow is
reachable in the embedded code paths).
-/

namespace Arche

/-! ## Substring containment (used to state "the prompt contains ...") -/

/-- Boolean substring test on character lists: `needle` occurs contiguously
inside `hay`. -/
def hasSub (hay needle : List Char) : Bool :=
  if needle.isPrefixOf hay then true
  else
    match hay with
    | [] => false
    | _ :: t => hasSub t needle

/-- Containment of strings: `ContainsStr s t` holds when the string `t`
occurs as a contiguous substring of `s`. -/
def ContainsStr (s t : String) : Prop := hasSub s.data t.data = true

instance (s t : String) : Decidable (ContainsStr s t) := by
  unfold ContainsStr; exact inferInstance

/-! ## `frontend/src/stores/agent.ts` — the agent store

The `AgentStatus` interface (lines 5–16) lists exactly the fields the backend
`status()` payload exposes to the dashboard. -/

/-- The `AgentStatus` interface of `agent.ts`, field for field.
`pid : number | null`, `goal : string | null`, `last_mode : string | null`
become `Option`-typed fields. -/
structure AgentStatus where
  running : Bool
  pid : Option Int
  turn : Nat
  goal : Option String
  mode : String
  engine : String
  last_mode : Option String
  infinite : Bool
  step : Bool
  paused : Bool
deriving DecidableEq, Repr

/-- The field names of the `AgentStatus` interface, in declaration order
(`agent.ts` lines 5–16). -/
def agentStatusFields : List String :=
  ["running", "pid", "turn", "goal", "mode", "engine",
   "last_mode", "infinite", "step", "paused"]

/-- The reactive refs held by the agent store itself (`agent.ts` lines 29–33):
`status`, `loading`, `error`, `logs`, `wsConnected`. -/
def agentStoreRefFields : List String :=
  ["status", "loading", "error", "logs", "wsConnected"]

/-- The `StartOptions` interface of `agent.ts` (lines 18–26): only `goal` is
required, every other field optional (`none` models an omitted field; for
`model`, TS `undefined` and `null` both coalesce to `null`, modelled as
`none`). -/
structure StartOptions where
  goal : String
  engine : Option String := none
  model : Option String := none
  plan_mode : Option Bool := none
  infinite : Option Bool := none
  step : Option Bool := none
  retro_every : Option String := none
deriving DecidableEq, Repr

/-- The JSON body `start` posts to `/api/start` (`agent.ts` lines 52–60),
after the `??` defaults have been applied. -/
structure StartRequest where
  goal : String
  engine : String
  model : Option String
  plan_mode : Bool
  infinite : Bool
  step : Bool
  retro_every : String
deriving DecidableEq, Repr

/-- The request body the store's `start` function sends (`agent.ts` lines
48–68), with the source's `??` fallbacks (`engine ?? 'claude_sdk'`,
`model ?? null`, `plan_mode ?? false`, `infinite ?? false`, `step ?? false`,
`retro_every ?? 'auto'`). -/
def startRequest (o : StartOptions) : StartRequest :=
  { goal := o.goal
    engine := o.engine.getD "claude_sdk"
    model := o.model
    plan_mode := o.plan_mode.getD false
    infinite := o.infinite.getD false
    step := o.step.getD false
    retro_every := o.retro_every.getD "auto" }

/-- The JSON body `submitFeedback` posts to `/api/feedback`. -/
structure FeedbackRequest where
  message : String
  priority : String
  interrupt : Bool
deriving DecidableEq, Repr

/-- The request body of `submitFeedback(message, priority = 'medium',
interrupt = false)` (`agent.ts` lines 116–128): `none` models an argument
left to its TS default. -/
def submitFeedbackRequest (message : String)
    (priority : Option String) (interrupt : Option Bool) : FeedbackRequest :=
  { message := message
    priority := priority.getD "medium"
    interrupt := interrupt.getD false }

/-- The log-buffer cap of `appendLog` (`agent.ts` lines 130–136), with JS
strings as `List Char`: `logs += content`, then if the result is longer than
50000 characters keep `slice(-40000)`, i.e. the last 40000 characters. -/
def appendLog (logs content : List Char) : List Char :=
  let l := logs ++ content
  if l.length > 50000 then l.drop (l.length - 40000) else l

/-- Spec-side reading of JS `slice(-n)`: the last `n` characters of a string
(the whole string when it is shorter than `n`). -/
def lastChars (n : Nat) (l : List Char) : List Char :=
  l.drop (l.length - n)

/-! ## `DiffViewer.vue` — `computeDiff` -/

/-- The union `DiffLine.type` of `DiffViewer.vue`:
`'add' | 'remove' | 'context' | 'header'`. -/
inductive DiffType where
  | add
  | remove
  | context
  | header
deriving DecidableEq, Repr

/-- The `DiffLine` interface of `DiffViewer.vue`: `lineNumber` is optional
(`remove` and `header` lines are pushed without one). -/
structure DiffLine where
  type : DiffType
  content : String
  lineNumber : Option Nat
deriving DecidableEq, Repr

/-- The loop body of `computeDiff`, as structural recursion over the two line
lists: position `i` of the JS loop corresponds to the heads, `lineNum` is the
running counter. `oldLine === undefined` is the first pattern (old exhausted:
push `add`), `newLine === undefined` the second (new exhausted: push `remove`),
otherwise compare the two defined lines. -/
def computeDiffGo (lineNum : Nat) : List String → List String → List DiffLine
  | [], [] => []
  | [], nl :: ns =>
      ⟨.add, nl, some (lineNum + 1)⟩ :: computeDiffGo (lineNum + 1) [] ns
  | ol :: os, [] =>
      ⟨.remove, ol, none⟩ :: computeDiffGo lineNum os []
  | ol :: os, nl :: ns =>
      if ol ≠ nl then
        ⟨.remove, ol, none⟩ :: ⟨.add, nl, some (lineNum + 1)⟩ ::
          computeDiffGo (lineNum + 1) os ns
      else
        ⟨.context, nl, some (lineNum + 1)⟩ :: computeDiffGo (lineNum + 1) os ns

/-- The function `computeDiff(oldText, newText)` of `DiffViewer.vue`
(lines 247–276): split both texts on newline and run the index loop. -/
def computeDiff (oldText newText : String) : List DiffLine :=
  computeDiffGo 0 (oldText.splitOn "\n") (newText.splitOn "\n")

/-- Spec-side description of the diff of a text against itself: every line is
a `context` line carrying that line's content, numbered consecutively starting
from the given counter. -/
def selfDiffSpec : Nat → List String → List DiffLine
  | _, [] => []
  | n, l :: ls => ⟨.context, l, some n⟩ :: selfDiffSpec (n + 1) ls

/-! ## `src/arche/PROMPT.md` — the mode-based turn-prompt template

The template is Jinja; it is embedded as a renderer producing the list of
output lines (the `{% %}` control tags themselves produce no content). Jinja
truthiness makes both an absent variable and an empty string falsy, and an
absent variable interpolates as the empty string. -/

/-- Jinja truthiness for string variables: absent (`none`) and `""` are falsy. -/
def truthy : Option String → Bool
  | none => false
  | some s => s ≠ ""

/-- Jinja `a or b`: `a` if truthy, else `b`. -/
def jinjaOr (a b : Option String) : Option String :=
  if truthy a then a else b

/-- The Jinja `upper` filter: upper-case every character. -/
def jinjaUpper (s : String) : String :=
  ⟨s.data.map Char.toUpper⟩

/-- The variables the PROMPT.md template reads. -/
structure PromptCtx where
  turn : Nat
  mode : String
  goal : Option String := none
  feedback : Option String := none
  prev_journal : Option String := none
  next_task : Option String := none
  context_journal : Option String := none
deriving DecidableEq, Repr

/-- The mode-based template of `src/arche/PROMPT.md` (lines 17–43), rendered
to its output lines:

* line 1: `Turn {{ turn }}. Mode: {{ mode | upper }}.`
* `{% if goal %}Goal: {{ goal }}{% endif %}`
* `{% if feedback %}` → blank line, `## User Feedback (address these first)`,
  the feedback text
* then one branch on `mode`: `plan` / `retro` / `review` / else (execute):
  the execute branch renders `## Task` with
  `{{ next_task or goal or "Continue with the plan" }}` and, only
  `{% if context_journal %}`, a `## Context` section. -/
def buildPromptLines (c : PromptCtx) : List String :=
  ["Turn " ++ toString c.turn ++ ". Mode: " ++ jinjaUpper c.mode ++ "."]
  ++ (if truthy c.goal then ["Goal: " ++ c.goal.getD ""] else [])
  ++ (if truthy c.feedback then
        ["", "## User Feedback (address these first)", c.feedback.getD ""]
      else [])
  ++ (if c.mode = "plan" then
        ["", "Create a detailed plan. Do NOT execute."]
      else if c.mode = "retro" then
        ["", "Conduct retrospective. Update PROJECT_RULES.md."]
      else if c.mode = "review" then
        ["", "## Previous Journal", c.prev_journal.getD ""]
      else
        ["", "## Task",
         (jinjaOr (jinjaOr c.next_task c.goal) (some "Continue with the plan")).getD ""]
        ++ (if truthy c.context_journal then
              ["", "## Context", c.context_journal.getD ""]
            else []))

/-- The whole rendered prompt, lines joined by newlines. -/
def buildPrompt (c : PromptCtx) : String :=
  String.intercalate "\n" (buildPromptLines c)

/-! ## `src/arche/RULE_REVIEW.md` — Response Format section (lines 53–92)

The review/plan system prompt instructs the agent on the directive JSON to
emit. The section is a Jinja fork on `batch`, and inside each JSON example the
`"status": "continue",` line is wrapped in `{%- if not infinite %}`; the
trailing `done` block (`"status": "done"`) is likewise emitted only
`{%- if not infinite %}`. Rendered here to its output lines (literal braces
written with their escapes). -/
def reviewResponseFormat (plan_mode batch infinite : Bool) : List String :=
  ["## Response Format",
   "",
   "After " ++ (if plan_mode then "planning" else "review")
     ++ ", output JSON to control the next turn:"]
  ++ (if batch then
        ["",
         "**Batch mode**: Give ALL remaining tasks at once. The executor is a fullstack AI.",
         "",
         "```json",
         "\x7b"]
        ++ (if !infinite then ["  \"status\": \"continue\","] else [])
        ++ ["  \"next_task\": \"Complete description of ALL remaining tasks to do\",",
            "  \"journal_file\": \".arche/journal/YYYYMMDD-HHMM-xxx.yaml\"",
            "\x7d",
            "```"]
      else
        ["",
         "**Incremental mode**: You can batch multiple related tasks if efficient.",
         "The executor is a fullstack AI.",
         "",
         "```json",
         "\x7b"]
        ++ (if !infinite then ["  \"status\": \"continue\","] else [])
        ++ ["  \"next_task\": \""
              ++ (if plan_mode then "First task(s) from the plan"
                  else "Task(s) description - can be multiple if they're related")
              ++ "\",",
            "  \"journal_file\": \".arche/journal/YYYYMMDD-HHMM-xxx.yaml\"",
            "\x7d",
            "```"])
  ++ (if !infinite then
        ["",
         "When ALL work is verified complete:",
         "```json",
         "\x7b",
         "  \"status\": \"done\"",
         "\x7d",
         "```"]
      else [])

/-! ## Turn Orchestrator — modelled from the spec

The Python daemon (`arche.py`) that runs the turn loop is not part of the
source tree here (only its templates, README and the web frontend are), so the
state machine of §4.1, the directive validation of §4.3 and the per-turn
record/session-state bookkeeping of §4.1/§8 are modelled from the spec. -/

/-- Modelled from the spec: the orchestrator's mode state machine states
(§4.1) — `Plan`, `Execute`, `Review`, `Retrospective`, `Done`, `Stopped`
(`arche.py` is absent from the source tree). -/
inductive OMode where
  | plan
  | exec
  | review
  | retro
  | done
  | stopped
deriving DecidableEq, Repr

/-- The directive record the Response Parser extracts (§4.3, §6): `status`,
`next_task`, `journal_file`, each possibly absent in the raw block. -/
structure Directive where
  status : Option String := none
  next_task : Option String := none
  journal_file : Option String := none
deriving DecidableEq, Repr

/-- A validated directive: either terminate, or carry on with a next task. -/
inductive GoodDirective where
  | finished
  | cont (next_task : String)
deriving DecidableEq, Repr

/-- Modelled from the spec: directive validation (§4.3, §8 infinite-mode
scenario; `arche.py` absent). An unrecognized `status` is treated as a missing
status; a missing status implies `continue` only in infinite mode; `continue`
requires `next_task`; in infinite mode a `done` status is a policy violation
reported as the missing required `next_task`. -/
def validateDirective (infinite : Bool) (d : Directive) :
    Except String GoodDirective :=
  if d.status = some "done" then
    if infinite then .error "missing required next_task"
    else .ok .finished
  else if d.status = some "continue" ∨ infinite then
    match d.next_task with
    | some t => .ok (.cont t)
    | none => .error "missing required next_task"
  else .error "missing required status"

/-- Modelled from the spec: the transition rules of §4.1 on a successfully
validated directive — `Plan → Execute`, `Execute → Review`,
`Review → Execute` on `continue`, `Review → Done` on `done`,
`Retrospective → Execute` (retrospective scheduling itself is out of the
claims' scope). -/
def nextOMode (m : OMode) (g : GoodDirective) : OMode :=
  match m, g with
  | .plan, _ => .exec
  | .exec, _ => .review
  | .review, .finished => .done
  | .review, .cont _ => .exec
  | .retro, _ => .exec
  | m, _ => m

/-- Modelled from the spec: the persisted `SessionState` plus the session's
durable `TurnRecord` keys (§3): turn counter, current mode, infinite flag, and
the sequence numbers of the TurnRecords written so far, in write order. -/
structure SessionState where
  turn : Nat
  mode : OMode
  infinite : Bool
  records : List Nat
deriving DecidableEq, Repr

/-- Modelled from the spec: the orchestrator's initial state (§4.1) — `Plan`
if the session was started with planning enabled, else `Execute`. -/
def initMode (plan_mode : Bool) : OMode :=
  if plan_mode then .plan else .exec

/-- Modelled from the spec: a fresh session's state: turn 0, initial mode per
`plan_mode`, no records yet. -/
def initState (infinite plan_mode : Bool) : SessionState :=
  { turn := 0, mode := initMode plan_mode, infinite := infinite, records := [] }

/-- Outcome of one attempt at a turn: either the turn committed and the
session advanced, or the directive was rejected and the orchestrator retries
the turn with a corrective prompt. -/
inductive TurnResult where
  | advanced (st : SessionState)
  | retry (corrective : String)
deriving DecidableEq, Repr

/-- Modelled from the spec: one attempt at a turn given the parsed directive
(§4.1 steps 5–6): on a validation failure nothing is persisted and the
orchestrator retries with a corrective prompt; on success the turn counter
advances, a TurnRecord with sequence number `turn + 1` is persisted, and the
mode steps per the transition rules. -/
def processAttempt (st : SessionState) (d : Directive) : TurnResult :=
  match validateDirective st.infinite d with
  | .error e => .retry e
  | .ok g =>
      .advanced { st with
        turn := st.turn + 1
        records := st.records ++ [st.turn + 1]
        mode := nextOMode st.mode g }

/-- Modelled from the spec: the loop body for one directive — a finished or
stopped session ignores it, a committed attempt advances the state, a
rejected attempt leaves the state unchanged (the corrective retry consumes
the next directive). -/
def stepTurn (st : SessionState) (d : Directive) : SessionState :=
  if st.mode = OMode.done ∨ st.mode = OMode.stopped then st
  else
    match processAttempt st d with
    | .advanced s' => s'
    | .retry _ => st

/-- Modelled from the spec: the turn loop over a sequence of parsed
directives (one per attempt). -/
def runTurns (st : SessionState) (ds : List Directive) : SessionState :=
  ds.foldl stepTurn st

/-- Modelled from the spec: crash recovery (§3, §5) — on restart the Session
Supervisor reloads the persisted `SessionState` and resumes from it rather
than from turn 1. -/
def resumeState (st : SessionState) : SessionState := st

/-! ## Durable Record Store `append` — modelled from the spec

The record store implementation is also part of the absent Python backend; the
write-to-temp-then-rename discipline of §4.4 is modelled as a two-step
program over an explicit store state. -/

/-- Modelled from the spec: the visible record set plus at most one
in-progress temp file (§4.4; the store implementation is absent from the
source tree). -/
structure StoreState where
  records : List (String × String)
  temp : Option (String × String)
deriving DecidableEq, Repr

/-- Modelled from the spec: the two primitive steps of an `append` — write
the full record to a temp file, then atomically rename it into place. -/
inductive StoreOp where
  | writeTemp (key payload : String)
  | rename
deriving DecidableEq, Repr

/-- Modelled from the spec: effect of one primitive step. A `rename` with no
temp file present is a no-op. -/
def applyOp (s : StoreState) : StoreOp → StoreState
  | .writeTemp k p => { s with temp := some (k, p) }
  | .rename =>
      match s.temp with
      | some kp => { records := s.records ++ [kp], temp := none }
      | none => s

/-- Modelled from the spec: `append(kind, payload)` as its step sequence —
write-to-temp, then rename (§4.4). -/
def appendOps (key payload : String) : List StoreOp :=
  [.writeTemp key payload, .rename]

/-- Run a sequence of store steps. -/
def runOps (s : StoreState) (ops : List StoreOp) : StoreState :=
  ops.foldl applyOp s

/-- What a concurrent or subsequent reader observes: only the renamed-in
records, never the temp file. -/
def readerView (s : StoreState) : List (String × String) := s.records

/-! ## Helper lemmas -/

theorem isPrefixOf_append_self (t b : List Char) : t.isPrefixOf (t ++ b) = true := by
  induction t with
  | nil => simp [List.isPrefixOf]
  | cons c t ih => simp [List.cons_append, List.isPrefixOf, ih]

theorem hasSub_of_head (t b : List Char) : hasSub (t ++ b) t = true := by
  unfold hasSub
  simp [isPrefixOf_append_self]

theorem hasSub_append_left (a rest t : List Char) (h : hasSub rest t = true) :
    hasSub (a ++ rest) t = true := by
  induction a with
  | nil => simpa using h
  | cons c a ih =>
    rw [List.cons_append]
    unfold hasSub
    split
    · rfl
    · exact ih

theorem containsStr_of_parts (s t : String) (a b : List Char)
    (h : s.data = a ++ (t.data ++ b)) : ContainsStr s t := by
  unfold ContainsStr
  rw [h]
  exact hasSub_append_left a _ _ (hasSub_of_head t.data b)

theorem computeDiffGo_self (ls : List String) :
    ∀ n, computeDiffGo n ls ls = selfDiffSpec (n + 1) ls := by
  induction ls with
  | nil => intro n; simp [computeDiffGo, selfDiffSpec]
  | cons l ls ih =>
    intro n
    simp [computeDiffGo, selfDiffSpec, ih (n + 1)]

theorem validateDirective_infinite_cont (d : Directive) (g : GoodDirective)
    (h : validateDirective true d = .ok g) : g ≠ .finished := by
  unfold validateDirective at h
  split at h
  · simp at h
  · rw [if_pos (Or.inr rfl)] at h
    split at h
    · rw [Except.ok.injEq] at h
      subst h
      simp
    · simp at h

theorem nextOMode_cont_ne_done (m : OMode) (t : String)
    (hm : m ≠ OMode.done) : nextOMode m (.cont t) ≠ OMode.done := by
  cases m <;> simp_all [nextOMode]

theorem stepTurn_infinite (st : SessionState) (d : Directive) :
    (stepTurn st d).infinite = st.infinite := by
  unfold stepTurn
  split
  · rfl
  · cases hpa : processAttempt st d with
    | retry e => rfl
    | advanced s' =>
      unfold processAttempt at hpa
      split at hpa
      · cases hpa
      · rw [TurnResult.advanced.injEq] at hpa
        subst hpa
        rfl

theorem stepTurn_mode_ne_done (st : SessionState) (d : Directive)
    (hinf : st.infinite = true) (hmode : st.mode ≠ OMode.done) :
    (stepTurn st d).mode ≠ OMode.done := by
  unfold stepTurn
  split
  · exact hmode
  · cases hpa : processAttempt st d with
    | retry e => exact hmode
    | advanced s' =>
      unfold processAttempt at hpa
      split at hpa
      · cases hpa
      · rename_i g hval
        rw [TurnResult.advanced.injEq] at hpa
        subst hpa
        rw [hinf] at hval
        cases g with
        | finished => exact absurd rfl (validateDirective_infinite_cont d _ hval)
        | cont t => exact nextOMode_cont_ne_done st.mode t hmode

theorem runTurns_mode_ne_done (st : SessionState) (ds : List Directive)
    (hinf : st.infinite = true) (hmode : st.mode ≠ OMode.done) :
    (runTurns st ds).mode ≠ OMode.done := by
  induction ds generalizing st with
  | nil => exact hmode
  | cons d ds ih =>
    rw [runTurns, List.foldl_cons]
    exact ih (stepTurn st d)
      ((stepTurn_infinite st d).trans hinf)
      (stepTurn_mode_ne_done st d hinf hmode)

theorem stepTurn_records (st : SessionState) (d : Directive)
    (h : st.records = List.range' 1 st.turn) :
    (stepTurn st d).records = List.range' 1 (stepTurn st d).turn := by
  unfold stepTurn
  split
  · exact h
  · cases hpa : processAttempt st d with
    | retry e => exact h
    | advanced s' =>
      unfold processAttempt at hpa
      split at hpa
      · cases hpa
      · rw [TurnResult.advanced.injEq] at hpa
        subst hpa
        simp only
        rw [h, List.range'_1_concat, Nat.add_comm]

theorem runTurns_records_range (st : SessionState) (ds : List Directive)
    (h : st.records = List.range' 1 st.turn) :
    (runTurns st ds).records = List.range' 1 (runTurns st ds).turn := by
  induction ds generalizing st with
  | nil => exact h
  | cons d ds ih =>
    rw [runTurns, List.foldl_cons]
    exact ih (stepTurn st d) (stepTurn_records st d h)

/-! ## Claims -/

/-- C1: for every session started with planning disabled the start request
carries `plan_mode = false` and the orchestrator's initial state is `Execute`
(`Plan` only with planning enabled); and in finite mode the happy-path run —
Execute turn 1 yields `continue / next_task "Y"`, Review turn 2 yields `done`
— reaches `Done` after exactly 2 turns, passing through `Review` after
turn 1 (turns alternate Execute then Review). -/
theorem arche_initial_exec_and_finite_happy_path (o : StartOptions)
    (h : o.plan_mode = none ∨ o.plan_mode = some false) :
    (startRequest o).plan_mode = false ∧
    initMode false = OMode.exec ∧
    initMode true = OMode.plan ∧
    runTurns (initState false false)
        [{ status := some "continue", next_task := some "Y" }] =
      { turn := 1, mode := OMode.review, infinite := false, records := [1] } ∧
    runTurns (initState false false)
        [{ status := some "continue", next_task := some "Y" },
         { status := some "done" }] =
      { turn := 2, mode := OMode.done, infinite := false, records := [1, 2] } := by
  refine ⟨?_, rfl, rfl, by decide, by decide⟩
  rcases h with h | h <;> simp [startRequest, h]

/-- Witness for C1: the defaults case `start({goal: "X"})`. -/
theorem arche_initial_exec_and_finite_happy_path_witness :
    (startRequest { goal := "X" }).plan_mode = false ∧
    initMode false = OMode.exec ∧
    initMode true = OMode.plan ∧
    runTurns (initState false false)
        [{ status := some "continue", next_task := some "Y" }] =
      { turn := 1, mode := OMode.review, infinite := false, records := [1] } ∧
    runTurns (initState false false)
        [{ status := some "continue", next_task := some "Y" },
         { status := some "done" }] =
      { turn := 2, mode := OMode.done, infinite := false, records := [1, 2] } :=
  arche_initial_exec_and_finite_happy_path { goal := "X" } (Or.inl rfl)

/-- C2: in infinite mode the rendered review directive format carries no
`"status"` field at all; a parsed directive with `status: done` is rejected
as a policy violation (missing required `next_task`), triggering the
corrective retry instead of committing a turn; and no infinite-mode run ever
reaches `Done`. -/
theorem arche_infinite_never_done :
    (∀ b p : Bool,
        ((reviewResponseFormat p b true).all
          (fun l => !(hasSub l.data "\"status\"".data))) = true) ∧
    (∀ st : SessionState, ∀ d : Directive, st.infinite = true →
        d.status = some "done" →
        processAttempt st d = .retry "missing required next_task") ∧
    (∀ pm : Bool, ∀ ds : List Directive,
        (runTurns (initState true pm) ds).mode ≠ OMode.done) := by
  refine ⟨?_, ?_, ?_⟩
  · intro b p
    cases b <;> cases p <;> decide
  · intro st d hinf hd
    simp [processAttempt, validateDirective, hinf, hd]
  · intro pm ds
    apply runTurns_mode_ne_done
    · rfl
    · cases pm <;> simp [initState, initMode]

/-- Witness for C2: a concrete infinite-mode session receiving a `done`
directive retries instead of terminating. -/
theorem arche_infinite_never_done_witness :
    processAttempt { turn := 0, mode := OMode.exec, infinite := true, records := [] }
        { status := some "done" } = .retry "missing required next_task" ∧
    (runTurns (initState true false) [{ status := some "done" }]).mode ≠ OMode.done :=
  ⟨arche_infinite_never_done.2.1 _ _ rfl rfl,
   arche_infinite_never_done.2.2 false _⟩

/-- C3 counterexample: in `retro` mode the template renders no prior-journal
content — at a concrete context with `prev_journal = "JOURNAL-73"` the
produced prompt does not contain it, refuting the claim's "prior turn's
journal content when the mode is Review or Retrospective" for Retrospective. -/
theorem retro_prompt_omits_prev_journal :
    hasSub (buildPrompt
        { turn := 5, mode := "retro", goal := some "G", feedback := some "F",
          prev_journal := some "JOURNAL-73" }).data
      "JOURNAL-73".data = false := by decide

/-- C3 (amended): the prompt contains the (upper-cased) mode name, the goal
when set (non-empty), claimed feedback as a distinct `## User Feedback`
section, the prior journal content when the mode is `review` (only — the
`retro` branch renders none), and the next-task description in the execute
branch. -/
theorem prompt_builder_includes_required (c : PromptCtx) :
    (∃ l ∈ buildPromptLines c, ContainsStr l (jinjaUpper c.mode)) ∧
    (truthy c.goal = true → ("Goal: " ++ c.goal.getD "") ∈ buildPromptLines c) ∧
    (truthy c.feedback = true →
        "## User Feedback (address these first)" ∈ buildPromptLines c ∧
        c.feedback.getD "" ∈ buildPromptLines c) ∧
    (c.mode = "review" → c.prev_journal.getD "" ∈ buildPromptLines c) ∧
    (c.mode ≠ "plan" → c.mode ≠ "retro" → c.mode ≠ "review" →
        truthy c.next_task = true →
        "## Task" ∈ buildPromptLines c ∧
        c.next_task.getD "" ∈ buildPromptLines c) := by
  refine ⟨?_, ?_, ?_, ?_, ?_⟩
  · refine ⟨"Turn " ++ toString c.turn ++ ". Mode: " ++ jinjaUpper c.mode ++ ".",
      ?_, ?_⟩
    · simp [buildPromptLines]
    · apply containsStr_of_parts _ _
        ("Turn " ++ toString c.turn ++ ". Mode: ").data ".".data
      simp [String.data_append]
  · intro h
    simp [buildPromptLines, h]
  · intro h
    constructor <;> simp [buildPromptLines, h]
  · intro h
    simp [buildPromptLines, h]
  · intro h1 h2 h3 h4
    constructor <;> simp [buildPromptLines, h1, h2, h3, jinjaOr, h4]

/-- Witness for C3: concrete review and execute contexts. -/
theorem prompt_builder_includes_required_witness :
    ("Goal: " ++ "G!") ∈ buildPromptLines
        { turn := 1, mode := "review", goal := some "G!",
          feedback := some "FB", prev_journal := some "PJ" } ∧
    "PJ" ∈ buildPromptLines
        { turn := 1, mode := "review", goal := some "G!",
          feedback := some "FB", prev_journal := some "PJ" } ∧
    "## Task" ∈ buildPromptLines { turn := 2, mode := "exec", next_task := some "T" } ∧
    "T" ∈ buildPromptLines { turn := 2, mode := "exec", next_task := some "T" } :=
  ⟨(prompt_builder_includes_required
      { turn := 1, mode := "review", goal := some "G!",
        feedback := some "FB", prev_journal := some "PJ" }).2.1 (by decide),
   (prompt_builder_includes_required
      { turn := 1, mode := "review", goal := some "G!",
        feedback := some "FB", prev_journal := some "PJ" }).2.2.2.1 rfl,
   (prompt_builder_includes_required
      { turn := 2, mode := "exec", next_task := some "T" }).2.2.2.2
     (by decide) (by decide) (by decide) (by decide) |>.1,
   (prompt_builder_includes_required
      { turn := 2, mode := "exec", next_task := some "T" }).2.2.2.2
     (by decide) (by decide) (by decide) (by decide) |>.2⟩

/-- C4 counterexample: with no `context_journal` the execute-branch prompt
contains no "no prior context" marker — the template simply omits the
Context section. -/
theorem missing_context_no_marker :
    hasSub (buildPrompt
        { turn := 2, mode := "exec", goal := some "G",
          next_task := some "do it" }).data
      "no prior context".data = false := by decide

/-- C4 (amended): the builder never fails on a missing prior-turn reference —
with `context_journal` absent the execute branch renders exactly the task
section, with no Context section and no marker; with `prev_journal` absent
the review branch renders the `## Previous Journal` heading over an empty
body. -/
theorem missing_context_renders_without_marker (n : Nat) (t : String)
    (h : t ≠ "") :
    buildPromptLines { turn := n, mode := "exec", next_task := some t } =
      ["Turn " ++ toString n ++ ". Mode: " ++ jinjaUpper "exec" ++ ".",
       "", "## Task", t] ∧
    buildPromptLines { turn := n, mode := "review" } =
      ["Turn " ++ toString n ++ ". Mode: " ++ jinjaUpper "review" ++ ".",
       "", "## Previous Journal", ""] := by
  constructor <;> simp [buildPromptLines, truthy, jinjaOr, h]

/-- Witness for C4: the concrete execute/review contexts at turn 2. -/
theorem missing_context_renders_without_marker_witness :
    buildPromptLines { turn := 2, mode := "exec", next_task := some "T" } =
      ["Turn " ++ toString 2 ++ ". Mode: " ++ jinjaUpper "exec" ++ ".",
       "", "## Task", "T"] ∧
    buildPromptLines { turn := 2, mode := "review" } =
      ["Turn " ++ toString 2 ++ ". Mode: " ++ jinjaUpper "review" ++ ".",
       "", "## Previous Journal", ""] :=
  missing_context_renders_without_marker 2 "T" (by decide)

/-- C5 counterexample: no field of the `AgentStatus` interface mentions an
error or a reason — `status()`'s payload, as declared, carries no
human-readable error reason. -/
theorem agentStatus_lacks_error_field :
    (agentStatusFields.all
      (fun f => !(hasSub f.data "error".data || hasSub f.data "reason".data)))
      = true := by decide

/-- C5 (amended): `status()`'s payload carries the turn counter (`turn`) but
no error-reason field; a human-readable error string lives only in the agent
store's separate `error` ref. -/
theorem agentStatus_surfaces_turn_not_error :
    "turn" ∈ agentStatusFields ∧
    (agentStatusFields.all
      (fun f => !(hasSub f.data "error".data || hasSub f.data "reason".data)))
      = true ∧
    "error" ∈ agentStoreRefFields := by decide

/-- C6 (modelled from the spec, the orchestrator daemon being absent from the
source tree): over any run the TurnRecord sequence numbers are exactly
`1, 2, …, turn` — strictly increasing with no gaps — and resuming from the
persisted `SessionState` after a crash at a turn boundary continues the very
same run: no sequence number is reused and no turn is skipped. -/
theorem turnRecord_sequence_monotone :
    (∀ inf pm : Bool, ∀ ds : List Directive,
        (runTurns (initState inf pm) ds).records =
          List.range' 1 (runTurns (initState inf pm) ds).turn) ∧
    (∀ inf pm : Bool, ∀ ds : List Directive,
        ((runTurns (initState inf pm) ds).records).Pairwise (· < ·)) ∧
    (∀ inf pm : Bool, ∀ ds₁ ds₂ : List Directive,
        runTurns (resumeState (runTurns (initState inf pm) ds₁)) ds₂ =
          runTurns (initState inf pm) (ds₁ ++ ds₂)) := by
  refine ⟨?_, ?_, ?_⟩
  · intro inf pm ds
    exact runTurns_records_range _ _ rfl
  · intro inf pm ds
    rw [runTurns_records_range _ _ rfl]
    exact List.pairwise_lt_range' 1 _
  · intro inf pm ds₁ ds₂
    simp [runTurns, resumeState, List.foldl_append]

/-- C7 (modelled from the spec, the record store implementation being absent
from the source tree): a crash at any point of `append`'s
write-temp-then-rename sequence leaves the reader view either the fully-prior
record set or the fully-new one, and a completed `append` yields exactly the
prior records plus the new one. -/
theorem append_crash_never_partial (s : StoreState) (k p : String) :
    (∀ n : Nat,
        readerView (runOps s ((appendOps k p).take n)) = readerView s ∨
        readerView (runOps s ((appendOps k p).take n)) =
          readerView s ++ [(k, p)]) ∧
    readerView (runOps s (appendOps k p)) = readerView s ++ [(k, p)] := by
  constructor
  · intro n
    match n with
    | 0 => left; rfl
    | 1 => left; rfl
    | (m + 2) => right; simp [appendOps, runOps, applyOp, readerView]
  · simp [appendOps, runOps, applyOp, readerView]

/-- C8: after `appendLog` the stored log buffer is at most 50000 characters,
and whenever the concatenation of the prior buffer and the chunk exceeds
50000 characters the stored value is exactly its last 40000 characters. -/
theorem appendLog_caps_buffer (logs content : List Char) :
    (appendLog logs content).length ≤ 50000 ∧
    ((logs ++ content).length > 50000 →
        appendLog logs content = lastChars 40000 (logs ++ content) ∧
        (appendLog logs content).length = 40000) := by
  unfold appendLog lastChars
  dsimp only
  constructor
  · split
    · rename_i h
      rw [List.length_drop]
      omega
    · rename_i h
      omega
  · intro hgt
    rw [if_pos hgt]
    refine ⟨rfl, ?_⟩
    rw [List.length_drop]
    omega

/-- Witness for C8: a 50001-character buffer is capped to its last 40000
characters. -/
theorem appendLog_caps_buffer_witness :
    appendLog (List.replicate 50001 'a') [] =
      lastChars 40000 (List.replicate 50001 'a' ++ []) ∧
    (appendLog (List.replicate 50001 'a') []).length = 40000 :=
  (appendLog_caps_buffer (List.replicate 50001 'a') []).2
    (by simp only [List.append_nil, List.length_replicate]; omega)

/-- C9: diffing a text against itself yields only `context` lines — one per
line of the text, in order, with `lineNumber` counting consecutively from 1
(`selfDiffSpec 1` is exactly that description). -/
theorem computeDiff_self_all_context (s : String) :
    computeDiff s s = selfDiffSpec 1 (s.splitOn "\n") := by
  unfold computeDiff
  simpa using computeDiffGo_self (s.splitOn "\n") 0

/-- C10: `start` called with only a goal sends the defaults
`engine "claude_sdk"`, `model null`, `plan_mode false`, `infinite false`,
`step false`, `retro_every "auto"`; `submitFeedback` without explicit
priority/interrupt sends `priority "medium"`, `interrupt false`. -/
theorem start_and_feedback_defaults (g m : String) :
    startRequest { goal := g } =
      { goal := g, engine := "claude_sdk", model := none, plan_mode := false,
        infinite := false, step := false, retro_every := "auto" } ∧
    submitFeedbackRequest m none none =
      { message := m, priority := "medium", interrupt := false } :=
  ⟨rfl, rfl⟩

end Arche
